import Mathlib

/-!
Verification development for the OWT QUIC transport factory
(`web_transport/sdk/impl/quic_transport_factory_impl.cc`).

The factory owns two worker threads (an I/O thread and an event thread),
creates server endpoints from a proof source (certificate/key file pair, or
a password-protected PKCS12 archive), and creates client endpoints by
translating a caller-supplied certificate-fingerprint list and constructing
the client object on the I/O thread behind a blocking wait.

External collaborators (Chromium `base`, `net`, `url`, the quiche engine)
are abstracted: proof-source initialization and URL parsing are oracle
parameters, and the thread machinery is reflected as explicit data
(which thread a construction runs on, whether the blocking wait returns).
-/

namespace OwtQuic

/-- A `base::Thread` as observed by this factory: its name and whether
`StartWithOptions` has been called on it. -/
structure Thread where
  name : String
  started : Bool
deriving DecidableEq, Repr

/-- The thread topology owned by `QuicTransportFactoryImpl`: the members
`io_thread_` and `event_thread_` created in the constructor
(`quic_transport_factory_impl.cc` lines 39-49). -/
structure Factory where
  ioThread : Thread
  eventThread : Thread
deriving DecidableEq, Repr

/-- The factory constructor creates the two named threads and starts both
with I/O-capable message-pump options before `Init()` runs
(`quic_transport_factory_impl.cc` lines 39-49). -/
def mkFactory : Factory :=
  { ioThread := { name := "quic_transport_io_thread", started := true },
    eventThread := { name := "quic_transport_event_thread", started := true } }

/-- Modelled from the spec: a caller-supplied `FingerprintRecord` carries a
digest-algorithm attribute and the digest bytes.  The concrete API header
(`owt/quic/quic_definitions.h`) is not among the sources; the algorithm is
represented by its name string, the digest by its textual form. -/
structure CertificateFingerprint where
  algorithm : String
  fingerprint : String
deriving DecidableEq, Repr

/-- The internal `::quic::CertificateFingerprint` representation pushed into
`net::WebTransportParameters::server_certificate_fingerprints`. -/
structure QuicCertificateFingerprint where
  algorithm : String
  fingerprint : String
deriving DecidableEq, Repr

/-- `::quic::CertificateFingerprint::kSha256`, the only supported algorithm
constant. -/
def kSha256 : String := "sha-256"

/-- The fingerprint-translation loop of `CreateQuicTransportClient`
(`quic_transport_factory_impl.cc` lines 107-115): for each caller record, the
internal entry's `algorithm` is set to `kSha256` unconditionally and its
`fingerprint` is copied from the record; entries are pushed in input order. -/
def translateFingerprints (records : List CertificateFingerprint) :
    List QuicCertificateFingerprint :=
  records.map (fun f => { algorithm := kSha256, fingerprint := f.fingerprint })

/-- Modelled from the spec: the URL/origin parser consumes a URL string and
returns an origin tuple (scheme, host, port) or a parse error.  `url::Origin`
values additionally distinguish the opaque origin that `url::Origin::Create`
yields for an invalid URL. -/
structure Origin where
  scheme : String
  host : String
  port : Int
  isOpaque : Bool
deriving DecidableEq, Repr

/-- The expression `url::Origin::Create(GURL(url))` in the posted construction
task (`quic_transport_factory_impl.cc` line 125): `parse` is the spec's
URL/origin parser oracle; the source applies `Origin::Create` without any
validity check, so a failed parse still yields an origin value (the opaque
origin), never an error. -/
def originCreate (parse : String → Option (String × String × Int))
    (url : String) : Origin :=
  match parse url with
  | some (s, h, p) => { scheme := s, host := h, port := p, isOpaque := false }
  | none => { scheme := "", host := "", port := 0, isOpaque := true }

/-- The proof-source material a server owns after successful initialization.
`filePair` records the three paths handed to
`net::ProofSourceChromium::Initialize` (certificate path, key path, and the
third path argument, which the factory always passes as the empty
`base::FilePath()`); `archive` records the arguments handed to
`ProofSourceOwt::Initialize`. -/
inductive ProofSource where
  | filePair (certPath keyPath thirdPath : String)
  | archive (pfxPath password : String)
deriving DecidableEq, Repr

/-- The construction arguments of `QuicTransportOwtServerImpl` as passed by the
factory (`quic_transport_factory_impl.cc` lines 69-71 and 84-86): port, the
(always empty) accepted-origins vector, the moved proof source, and raw
references to the factory's two threads. -/
structure Server where
  port : Int
  acceptedOrigins : List Origin
  proofSource : ProofSource
  ioThread : Thread
  eventThread : Thread
deriving DecidableEq, Repr

/-- The construction arguments of `QuicTransportOwtClientImpl` as passed inside
the posted task (`quic_transport_factory_impl.cc` lines 126-128): the URL, the
origin computed from it, the translated fingerprint list inside
`net::WebTransportParameters`, and raw references to the factory's two
threads. -/
structure Client where
  url : String
  origin : Origin
  serverCertificateFingerprints : List QuicCertificateFingerprint
  ioThread : Thread
  eventThread : Thread
deriving DecidableEq, Repr

/-- Observable actions a factory creation call performs, in program order:
initializing a proof source (with its outcome), constructing an endpoint
object (recording whether the construction runs on the I/O thread or directly
on the calling thread), posting a task to the I/O thread's task runner, and
blocking on the `base::WaitableEvent`. -/
inductive FactoryEvent where
  | proofSourceInitialized (ok : Bool)
  | endpointConstructed (onIOThread : Bool)
  | taskPostedToIOThread
  | waitedOnEvent
deriving DecidableEq, Repr

/-- File-pair overload `CreateQuicTransportServer(port, cert_path, key_path,
secret_path)` (`quic_transport_factory_impl.cc` lines 57-72).  `initOk` is the
oracle for `net::ProofSourceChromium::Initialize` (external code), applied to
the three paths the source actually passes: `cert_path`, `key_path`, and an
empty path — `secret_path` is never used.  On failure the call logs and
returns null; on success it constructs the server directly on the calling
thread.  The second component is the trace of observable actions. -/
def createQuicTransportServerFilePair (f : Factory)
    (initOk : String → String → String → Bool) (port : Int)
    (certPath keyPath secretPath : String) :
    Option Server × List FactoryEvent :=
  if initOk certPath keyPath "" then
    (some { port := port, acceptedOrigins := [],
            proofSource := ProofSource.filePair certPath keyPath "",
            ioThread := f.ioThread, eventThread := f.eventThread },
     [FactoryEvent.proofSourceInitialized true,
      FactoryEvent.endpointConstructed false])
  else
    (none, [FactoryEvent.proofSourceInitialized false])

/-- Archive overload `CreateQuicTransportServer(port, pfx_path, password)`
(`quic_transport_factory_impl.cc` lines 74-87).  `initOk` is the oracle for
`ProofSourceOwt::Initialize` (whose definition is outside these sources),
applied to the archive path and password.  Structure mirrors the file-pair
overload: null on initialization failure, otherwise direct construction on
the calling thread. -/
def createQuicTransportServerArchive (f : Factory)
    (initOk : String → String → Bool) (port : Int)
    (pfxPath password : String) :
    Option Server × List FactoryEvent :=
  if initOk pfxPath password then
    (some { port := port, acceptedOrigins := [],
            proofSource := ProofSource.archive pfxPath password,
            ioThread := f.ioThread, eventThread := f.eventThread },
     [FactoryEvent.proofSourceInitialized true,
      FactoryEvent.endpointConstructed false])
  else
    (none, [FactoryEvent.proofSourceInitialized false])

/-- Outcome of a call that may block: either the call returns a value, or the
blocking wait never completes. -/
inductive CallOutcome (α : Type) where
  | returns (a : α)
  | blocksForever
deriving DecidableEq, Repr

/-- Two-argument `CreateQuicTransportClient(url, parameters)`
(`quic_transport_factory_impl.cc` lines 101-137).  The fingerprint list is
translated, a task constructing the client is posted to the I/O thread's task
runner unconditionally, and the caller blocks on a `base::WaitableEvent`
signaled only by that task.  `ioThreadAccepting` reflects whether the I/O
thread still accepts and runs posted tasks: the source contains no branch on
it — when the task runs, the client is constructed (on the I/O thread) and
returned; when it never runs, `done.Wait()` never returns, which is the
`blocksForever` outcome.  No path returns a null client. -/
def createQuicTransportClient (f : Factory)
    (parse : String → Option (String × String × Int))
    (ioThreadAccepting : Bool) (url : String)
    (parameters : List CertificateFingerprint) :
    CallOutcome (Option Client) :=
  if ioThreadAccepting then
    CallOutcome.returns
      (some { url := url, origin := originCreate parse url,
              serverCertificateFingerprints := translateFingerprints parameters,
              ioThread := f.ioThread, eventThread := f.eventThread })
  else
    CallOutcome.blocksForever

/-- One-argument `CreateQuicTransportClient(url)`
(`quic_transport_factory_impl.cc` lines 94-99): builds a `Parameters` value
with `server_certificate_fingerprints_length = 0` (an empty fingerprint list)
and calls the two-argument overload. -/
def createQuicTransportClientUrlOnly (f : Factory)
    (parse : String → Option (String × String × Int))
    (ioThreadAccepting : Bool) (url : String) :
    CallOutcome (Option Client) :=
  createQuicTransportClient f parse ioThreadAccepting url []

/-- Chromium logging level `logging::LOG_INFO`. -/
def LOG_INFO : Int := 0

/-- Chromium logging level `logging::LOG_WARNING`. -/
def LOG_WARNING : Int := 1

/-- Process-wide state touched by `QuicTransportFactoryImpl::Init`: whether
`base::CommandLine::Init` has run, the accumulated process command line, the
minimum log level, and how many times `logging::InitLogging` has been
applied. -/
structure ProcessEnv where
  commandLineInitialized : Bool
  argv : List String
  minLogLevel : Int
  loggingInitCount : Nat
deriving DecidableEq, Repr

/-- `QuicTransportFactoryImpl::Init` (`quic_transport_factory_impl.cc` lines
139-152), run unconditionally by every factory constructor.
`base::CommandLine::Init` is one-shot in Chromium (a no-op when the command
line already exists), but `AppendSwitch` appends `--quic_default_to_bbr` to
the current process command line on every call, `SetMinLogLevel` sets the
level (release build: `LOG_WARNING`), and `logging::InitLogging` applies the
stderr settings on every call. -/
def factoryInit (env : ProcessEnv) : ProcessEnv :=
  { commandLineInitialized := true,
    argv := env.argv ++ ["--quic_default_to_bbr"],
    minLogLevel := LOG_WARNING,
    loggingInitCount := env.loggingInitCount + 1 }

/-- The factory constructor as a whole (`quic_transport_factory_impl.cc` lines
39-49): creates and starts the two threads, then runs `Init()` against the
process environment. -/
def constructFactory (env : ProcessEnv) : Factory × ProcessEnv :=
  (mkFactory, factoryInit env)


/-- Claim C3: for either overload of `CreateQuicTransportServer`, a failed
proof-source initialization yields a null handle and no server object, while a
successful initialization yields a non-null server owning the freshly
initialized proof source. -/
theorem server_creation_null_iff_proof_source_init (f : Factory)
    (initOkFP : String → String → String → Bool)
    (initOkA : String → String → Bool) (port : Int)
    (certPath keyPath secretPath pfxPath password : String) :
    (createQuicTransportServerFilePair f initOkFP port certPath keyPath
        secretPath).1
      = (if initOkFP certPath keyPath "" then
           some { port := port, acceptedOrigins := [],
                  proofSource := ProofSource.filePair certPath keyPath "",
                  ioThread := f.ioThread, eventThread := f.eventThread }
         else none)
    ∧ (createQuicTransportServerArchive f initOkA port pfxPath password).1
      = (if initOkA pfxPath password then
           some { port := port, acceptedOrigins := [],
                  proofSource := ProofSource.archive pfxPath password,
                  ioThread := f.ioThread, eventThread := f.eventThread }
         else none) := by
  constructor
  · unfold createQuicTransportServerFilePair
    split <;> rfl
  · unfold createQuicTransportServerArchive
    split <;> rfl

/-- Claim C10: the file-pair overload of `CreateQuicTransportServer` is
insensitive to its `secret_path` argument — any two calls differing only in
`secret_path` are identical, and the proof source of any successful result
was initialized from the certificate path, the key path, and an empty path in
place of the secret. -/
theorem server_file_pair_ignores_secret_path (f : Factory)
    (initOk : String → String → String → Bool) (port : Int)
    (certPath keyPath s₁ s₂ : String) :
    createQuicTransportServerFilePair f initOk port certPath keyPath s₁
      = createQuicTransportServerFilePair f initOk port certPath keyPath s₂
    ∧ ((createQuicTransportServerFilePair f initOk port certPath keyPath
          s₁).1.map Server.proofSource)
      = (if initOk certPath keyPath "" then
           some (ProofSource.filePair certPath keyPath "")
         else none) := by
  constructor
  · rfl
  · unfold createQuicTransportServerFilePair
    split <;> rfl

/-- Claim C2 counterexample: a successful file-pair server creation constructs
the server object directly on the calling thread — no task is posted to the
I/O thread and no construction runs on it. -/
theorem server_constructed_on_calling_thread :
    (createQuicTransportServerFilePair mkFactory (fun _ _ _ => true) 9090
        "cert.pem" "key.pem" "secret.txt").1.isSome = true
    ∧ FactoryEvent.taskPostedToIOThread ∉
        (createQuicTransportServerFilePair mkFactory (fun _ _ _ => true) 9090
          "cert.pem" "key.pem" "secret.txt").2
    ∧ FactoryEvent.endpointConstructed true ∉
        (createQuicTransportServerFilePair mkFactory (fun _ _ _ => true) 9090
          "cert.pem" "key.pem" "secret.txt").2 := by
  decide

/-- Claim C2 (amended): both overloads of `CreateQuicTransportServer` construct
the server object directly on the calling thread, never via the cross-thread
construction protocol — the trace of a server creation contains only the
proof-source initialization and (on success) a direct construction; no task
posting and no wait occur. -/
theorem server_creation_posts_no_task (f : Factory)
    (initOkFP : String → String → String → Bool)
    (initOkA : String → String → Bool) (port : Int)
    (certPath keyPath secretPath pfxPath password : String) :
    (createQuicTransportServerFilePair f initOkFP port certPath keyPath
        secretPath).2
      = (if initOkFP certPath keyPath "" then
           [FactoryEvent.proofSourceInitialized true,
            FactoryEvent.endpointConstructed false]
         else [FactoryEvent.proofSourceInitialized false])
    ∧ (createQuicTransportServerArchive f initOkA port pfxPath password).2
      = (if initOkA pfxPath password then
           [FactoryEvent.proofSourceInitialized true,
            FactoryEvent.endpointConstructed false]
         else [FactoryEvent.proofSourceInitialized false]) := by
  constructor
  · unfold createQuicTransportServerFilePair
    split <;> rfl
  · unfold createQuicTransportServerArchive
    split <;> rfl

/-- Claim C1 counterexample: a fingerprint record whose algorithm is `sha-1`
(not the supported SHA-256 constant) is not rejected — no error is produced, a
client is constructed from the input, and the record is silently coerced to an
SHA-256 entry. -/
theorem unsupported_algorithm_still_constructs_client :
    ("sha-1" : String) ≠ kSha256
    ∧ createQuicTransportClient mkFactory (fun _ => none) true
        "https://example.test"
        [{ algorithm := "sha-1", fingerprint := "AA:BB" }]
      = CallOutcome.returns (some
          { url := "https://example.test",
            origin := { scheme := "", host := "", port := 0, isOpaque := true },
            serverCertificateFingerprints :=
              [{ algorithm := "sha-256", fingerprint := "AA:BB" }],
            ioThread := mkFactory.ioThread,
            eventThread := mkFactory.eventThread }) := by
  exact ⟨by decide, rfl⟩

/-- Claim C1 (amended): fingerprint translation never inspects the input
record's algorithm and never rejects a record — every translated entry's
algorithm is unconditionally set to the SHA-256 constant, and a client is
constructed from every fingerprint list (no error path exists). -/
theorem translation_coerces_algorithm_never_rejects (f : Factory)
    (parse : String → Option (String × String × Int)) (url : String)
    (records : List CertificateFingerprint) :
    ((translateFingerprints records).all
        (fun e => e.algorithm == kSha256)) = true
    ∧ createQuicTransportClient f parse true url records
      = CallOutcome.returns (some
          { url := url, origin := originCreate parse url,
            serverCertificateFingerprints := translateFingerprints records,
            ioThread := f.ioThread, eventThread := f.eventThread }) := by
  constructor
  · simp [translateFingerprints]
  · rfl

/-- Claim C4: the one-argument `CreateQuicTransportClient(url)` is exactly the
two-argument overload applied to a parameters value with an empty fingerprint
list, and the resulting client's verification configuration is empty (no
fingerprint pinning). -/
theorem client_one_arg_eq_two_arg_empty (f : Factory)
    (parse : String → Option (String × String × Int))
    (ioThreadAccepting : Bool) (url : String) :
    createQuicTransportClientUrlOnly f parse ioThreadAccepting url
      = createQuicTransportClient f parse ioThreadAccepting url []
    ∧ createQuicTransportClient f parse true url []
      = CallOutcome.returns (some
          { url := url, origin := originCreate parse url,
            serverCertificateFingerprints := [],
            ioThread := f.ioThread, eventThread := f.eventThread }) :=
  ⟨rfl, rfl⟩

/-- Claim C5: fingerprint translation is a pure function of its input and is
length- and order-preserving — the output has exactly as many entries as the
input, and the entry at every index carries the digest of the input record at
that same index. -/
theorem translate_pure_order_preserving
    (records : List CertificateFingerprint) (i : Nat) :
    (translateFingerprints records).length = records.length
    ∧ (translateFingerprints records).map QuicCertificateFingerprint.fingerprint
      = records.map CertificateFingerprint.fingerprint
    ∧ ((translateFingerprints records)[i]?).map
        QuicCertificateFingerprint.fingerprint
      = (records[i]?).map CertificateFingerprint.fingerprint := by
  refine ⟨?_, ?_, ?_⟩
  · simp [translateFingerprints]
  · simp [translateFingerprints]
  · simp only [translateFingerprints, List.getElem?_map, Option.map_map]
    cases records[i]? <;> rfl

/-- Claim C6 counterexample: when the URL fails to parse into a valid origin,
`CreateQuicTransportClient` does not return a null handle — a client is still
constructed, carrying the opaque origin. -/
theorem unparsable_url_still_constructs_client :
    createQuicTransportClient mkFactory (fun _ => none) true "not a url" []
      = CallOutcome.returns (some
          { url := "not a url",
            origin := { scheme := "", host := "", port := 0, isOpaque := true },
            serverCertificateFingerprints := [],
            ioThread := mkFactory.ioThread,
            eventThread := mkFactory.eventThread })
    ∧ createQuicTransportClient mkFactory (fun _ => none) true "not a url" []
      ≠ CallOutcome.returns none := by
  exact ⟨rfl, by decide⟩

/-- Claim C6 (amended): client creation never yields a null handle — even with
a parser that fails on every URL, a client is constructed (with the opaque
origin) and returned; only server creation signals failure through a null
handle. -/
theorem client_creation_never_null (f : Factory) (url : String)
    (records : List CertificateFingerprint) :
    createQuicTransportClient f (fun _ => none) true url records
      = CallOutcome.returns (some
          { url := url,
            origin := { scheme := "", host := "", port := 0, isOpaque := true },
            serverCertificateFingerprints := translateFingerprints records,
            ioThread := f.ioThread, eventThread := f.eventThread }) :=
  rfl

/-- Claim C7 counterexample: invoked when the I/O thread no longer accepts
tasks, `CreateQuicTransportClient` blocks forever on the synchronization
signal instead of failing fast with any error. -/
theorem post_teardown_client_creation_blocks :
    createQuicTransportClient mkFactory (fun _ => none) false
        "https://example.test" []
      = CallOutcome.blocksForever :=
  rfl

/-- Claim C7 (amended): when the I/O thread no longer accepts tasks,
`CreateQuicTransportClient` posts its construction task unconditionally and
blocks the caller indefinitely on the `WaitableEvent`; no topology-unavailable
error path exists in the call. -/
theorem client_creation_blocks_when_io_thread_down (f : Factory)
    (parse : String → Option (String × String × Int)) (url : String)
    (records : List CertificateFingerprint) :
    createQuicTransportClient f parse false url records
      = CallOutcome.blocksForever :=
  rfl

/-- Claim C8: the factory constructor creates exactly the two named worker
threads, both started before any endpoint creation, and every endpoint the
factory creates — a server through either overload, or a client — is handed
references to exactly these two threads. -/
theorem factory_topology_two_threads
    (initOkFP : String → String → String → Bool)
    (initOkA : String → String → Bool)
    (parse : String → Option (String × String × Int)) (port : Int)
    (certPath keyPath secretPath pfxPath password url : String)
    (records : List CertificateFingerprint) :
    mkFactory.ioThread.started = true
    ∧ mkFactory.eventThread.started = true
    ∧ mkFactory.ioThread.name = "quic_transport_io_thread"
    ∧ mkFactory.eventThread.name = "quic_transport_event_thread"
    ∧ (∀ srv : Server,
        (createQuicTransportServerFilePair mkFactory initOkFP port certPath
            keyPath secretPath).1 = some srv →
          srv.ioThread = mkFactory.ioThread
          ∧ srv.eventThread = mkFactory.eventThread)
    ∧ (∀ srv : Server,
        (createQuicTransportServerArchive mkFactory initOkA port pfxPath
            password).1 = some srv →
          srv.ioThread = mkFactory.ioThread
          ∧ srv.eventThread = mkFactory.eventThread)
    ∧ (∀ cl : Client, ∀ accepting : Bool,
        createQuicTransportClient mkFactory parse accepting url records
          = CallOutcome.returns (some cl) →
          cl.ioThread = mkFactory.ioThread
          ∧ cl.eventThread = mkFactory.eventThread) := by
  refine ⟨rfl, rfl, rfl, rfl, ?_, ?_, ?_⟩
  · intro srv h
    unfold createQuicTransportServerFilePair at h
    split at h
    · cases Option.some.inj h
      exact ⟨rfl, rfl⟩
    · exact Option.noConfusion h
  · intro srv h
    unfold createQuicTransportServerArchive at h
    split at h
    · cases Option.some.inj h
      exact ⟨rfl, rfl⟩
    · exact Option.noConfusion h
  · intro cl accepting h
    cases accepting
    · exact CallOutcome.noConfusion h
    · cases Option.some.inj (CallOutcome.returns.inj h)
      exact ⟨rfl, rfl⟩

/-- Claim C8 witness: the topology theorem applied at a concrete successful
file-pair server creation, a concrete successful archive server creation, and
a concrete client creation. -/
theorem factory_topology_two_threads_witness :
    ({ port := 9090, acceptedOrigins := [],
       proofSource := ProofSource.filePair "cert.pem" "key.pem" "",
       ioThread := mkFactory.ioThread,
       eventThread := mkFactory.eventThread } : Server).ioThread
      = mkFactory.ioThread
    ∧ ({ port := 9090, acceptedOrigins := [],
         proofSource := ProofSource.archive "archive.pfx" "password",
         ioThread := mkFactory.ioThread,
         eventThread := mkFactory.eventThread } : Server).eventThread
      = mkFactory.eventThread
    ∧ ({ url := "https://example.test",
         origin := { scheme := "", host := "", port := 0, isOpaque := true },
         serverCertificateFingerprints := [],
         ioThread := mkFactory.ioThread,
         eventThread := mkFactory.eventThread } : Client).ioThread
      = mkFactory.ioThread :=
  ⟨((factory_topology_two_threads (fun _ _ _ => true) (fun _ _ => true)
      (fun _ => none) 9090 "cert.pem" "key.pem" "secret" "archive.pfx"
      "password" "https://example.test" []).2.2.2.2.1 _ rfl).1,
   ((factory_topology_two_threads (fun _ _ _ => true) (fun _ _ => true)
      (fun _ => none) 9090 "cert.pem" "key.pem" "secret" "archive.pfx"
      "password" "https://example.test" []).2.2.2.2.2.1 _ rfl).2,
   ((factory_topology_two_threads (fun _ _ _ => true) (fun _ _ => true)
      (fun _ => none) 9090 "cert.pem" "key.pem" "secret" "archive.pfx"
      "password" "https://example.test" []).2.2.2.2.2.2 _ true rfl).1⟩

/-- Claim C9 counterexample: constructing a second factory in the same process
alters the process-wide bootstrap state — starting from a fresh process
environment, the environment after two factory constructions differs from the
environment after one. -/
theorem second_factory_reruns_bootstrap :
    (constructFactory (constructFactory
        { commandLineInitialized := false, argv := [], minLogLevel := 0,
          loggingInitCount := 0 }).2).2
      ≠ (constructFactory
        { commandLineInitialized := false, argv := [], minLogLevel := 0,
          loggingInitCount := 0 }).2 := by
  decide

/-- Claim C9 (amended): every factory construction re-runs `Init` — the
command-line-initialized flag itself is idempotent (Chromium's
`CommandLine::Init` is one-shot), but each construction appends the
`--quic_default_to_bbr` switch to the process command line again and re-runs
logging initialization; the bootstrap is not guarded against repetition. -/
theorem factory_construction_reruns_init (env : ProcessEnv) :
    (constructFactory (constructFactory env).2).2
      = { commandLineInitialized := true,
          argv := (constructFactory env).2.argv ++ ["--quic_default_to_bbr"],
          minLogLevel := LOG_WARNING,
          loggingInitCount := (constructFactory env).2.loggingInitCount + 1 }
    ∧ (constructFactory (constructFactory env).2).2.commandLineInitialized
      = (constructFactory env).2.commandLineInitialized
    ∧ (constructFactory (constructFactory env).2).1 = (constructFactory env).1 :=
  ⟨rfl, rfl, rfl⟩

end OwtQuic
